import Mathlib

/-!
Verification of the Skypack package source of the snowpack repository
(file src/snowpack/src/sources/skypack.ts).

The TypeScript module is embedded shallowly: its pure helpers become Lean
functions on strings and character lists, while its network effects
(fetchCDN, lookupBySpecifier, buildNewPackage, installTypes, logger) are
modelled by an explicit environment of oracles plus an event trace, and
the process-wide fetchedPackages set is threaded as explicit state.
-/

namespace Skypack

/-! ### Character-level string helpers -/

/-- Single quote character, kept as a named constant. -/
def squote : Char := Char.ofNat 39

/-- Double quote character, kept as a named constant. -/
def dquote : Char := Char.ofNat 34

/-- Does the second list start with the first one?  Used to model both
JS String.startsWith and regex literal matching. -/
def startsWithList : List Char → List Char → Bool
  | [], _ => true
  | _ :: _, [] => false
  | p :: ps, c :: cs => p == c && startsWithList ps cs

/-- Models JS String.split on the single character slash: every occurrence
splits, empty pieces are kept, and the empty string yields one empty piece. -/
def splitSlash : List Char → List (List Char)
  | [] => [[]]
  | c :: cs =>
    if c = '/' then [] :: splitSlash cs
    else
      match splitSlash cs with
      | [] => [[c]]
      | p :: ps => (c :: p) :: ps

/-- Models JS String.startsWith. -/
def jsStartsWith (s p : String) : Bool := startsWithList p.toList s.toList

/-- Models the JS idiom `x || null` on a string: the empty string is falsy
and becomes null (`none`); any other string is kept. -/
def orNull (s : String) : Option String := if s = "" then none else some s

/-! ### Specifier Parser (parseRawPackageImport, skypack.ts lines 30-38) -/

/-- Embeds parseRawPackageImport.  The source splits the specifier on
slash; for a scoped specifier the first two pieces form the package name
(a missing name piece is JS undefined, which string interpolation renders
as the text undefined), otherwise the first piece alone does; the
remaining pieces are re-joined and an empty join becomes null.
splitSlash never returns an empty list, so the headD defaults for the
first piece are unreachable and chosen to mirror JS undefined. -/
def parseRawPackageImport (spec : String) : String × Option String :=
  let impParts := (splitSlash spec.toList).map (fun l => String.mk l)
  if jsStartsWith spec "@" then
    let scope := impParts.headD "undefined"
    let name := (impParts.drop 1).headD "undefined"
    let rest := impParts.drop 2
    (scope ++ "/" ++ name, orNull (String.intercalate "/" rest))
  else
    let name := impParts.headD "undefined"
    let rest := impParts.drop 1
    (name, orNull (String.intercalate "/" rest))

/-! ### Events and the Dedup Notifier (logFetching, skypack.ts lines 16-28) -/

/-- Observable effects of the module: CDN fetches, CDN lookups, CDN build
requests, the log-once progress message (identified by its package name),
type-declaration installs, and plain info log lines. -/
inductive Event where
  | fetchCDN (path : String)
  | lookup (spec version : String)
  | build (spec version : String)
  | log (packageName : String)
  | installTypes (lookupSpec : String)
  | info (msg : String)
deriving DecidableEq

/-- Embeds logFetching.  The process-wide fetchedPackages set is passed
and returned explicitly; the emitted progress messages (zero or one) are
returned as log events carrying the package name. -/
def logFetching (fetched : List String) (packageName : String) :
    List String × List Event :=
  if packageName ∈ fetched then (fetched, [])
  else (packageName :: fetched, [Event.log packageName])

/-- Runs a sequence of logFetching calls starting from a given set,
collecting the emitted events in order. -/
def runNotifierFrom (fetched : List String) : List String → List String × List Event
  | [] => (fetched, [])
  | c :: cs =>
    let step := logFetching fetched c
    let rest := runNotifierFrom step.1 cs
    (rest.1, step.2 ++ rest.2)

/-- Runs a sequence of logFetching calls in a fresh process: the
fetchedPackages set starts empty, as at module initialization. -/
def runNotifier (calls : List String) : List String × List Event :=
  runNotifierFrom [] calls

/-- Counts the progress messages emitted for one package name. -/
def countLog (name : String) (t : List Event) : Nat :=
  (t.filter (fun e =>
    match e with
    | Event.log n => n == name
    | _ => false)).length

/-- Counts the lookup calls in a trace. -/
def countLookups (t : List Event) : Nat :=
  (t.filter (fun e =>
    match e with
    | Event.lookup _ _ => true
    | _ => false)).length

/-- Counts the build calls in a trace. -/
def countBuilds (t : List Event) : Nat :=
  (t.filter (fun e =>
    match e with
    | Event.build _ _ => true
    | _ => false)).length

/-! ### External collaborators and data shapes -/

/-- Response of the CDN lookup collaborator: an optional error (an Error
object in JS is always truthy, so presence alone decides the branch), an
importStatus string, and the body. -/
structure LookupResponse where
  error : Option String
  importStatus : String
  body : String

/-- Oracle environment for one load call: the body served by fetchCDN for
each path, the response of the n-th lookupBySpecifier call (the CDN is
stateful, so consecutive lookups may differ), and the success flag of the
buildNewPackage collaborator. -/
structure Env where
  fetchBody : String → String
  lookups : Nat → LookupResponse
  buildSuccess : Bool

/-- Lockfile manifest shape consumed by the module, read-only. -/
structure Lockfile where
  imports : List (String × String)
  dependencies : List (String × String)

/-- Import map returned by prepare. -/
structure ImportMap where
  imports : List (String × String)
deriving DecidableEq

/-- The slice of SnowpackConfig this module reads. -/
structure Config where
  webModulesUrl : String

/-- First binding of a key in an association list, as a JS object lookup. -/
def mapGet (m : List (String × String)) (k : String) : Option String :=
  (m.find? (fun kv => kv.1 == k)).map (fun kv => kv.2)

/-- Models the JS guard `lockfile && lockfile.imports[k]`: the result is
kept only when the lockfile exists, the key is present and its value is
truthy (a nonempty string). -/
def truthyGet (lockfile : Option Lockfile) (k : String) : Option String :=
  match lockfile with
  | none => none
  | some lf =>
    match mapGet lf.imports k with
    | none => none
    | some v => if v = "" then none else some v

/-- Models `lockfile?.dependencies && lockfile.dependencies[packageName]`
with the same truthiness convention. -/
def truthyDep (lockfile : Option Lockfile) (packageName : String) : Option String :=
  match lockfile with
  | none => none
  | some lf =>
    match mapGet lf.dependencies packageName with
    | none => none
    | some v => if v = "" then none else some v

/-- Models JS string concatenation with a possibly-null operand: null is
rendered as the four-letter text null. -/
def jsStr : Option String → String
  | some s => s
  | none => "null"

/-- Message of the error thrown when buildNewPackage reports failure. -/
def buildFailMsg : String := "Package could not be built!"

/-- Errors a load call can throw: the descriptive build failure, or the
lookup response error re-thrown as-is. -/
inductive LoadError where
  | buildError (msg : String)
  | lookupError (e : String)
deriving DecidableEq

/-- The fixed set of CDN-internal path markers checked at the top of load. -/
def isCdnInternal (spec : String) : Bool :=
  jsStartsWith spec "-/" || jsStartsWith spec "pin/" ||
  jsStartsWith spec "new/" || jsStartsWith spec "error/"

/-- Embeds the body-acquisition part of load (skypack.ts lines 97-131):
direct fetch for CDN-internal paths; otherwise exact lockfile pin, then
package-prefixed lockfile pin (concatenated with the possibly-null
subpath), then the lookup / conditional build / single re-lookup cycle.
Returns the body or thrown error, the trace of collaborator calls, and
the updated fetchedPackages set. -/
def loadBody (env : Env) (spec : String) (lockfile : Option Lockfile)
    (fetched : List String) : Except LoadError String × List Event × List String :=
  if isCdnInternal spec then
    (Except.ok (env.fetchBody ("/" ++ spec)), [Event.fetchCDN ("/" ++ spec)], fetched)
  else
    let packageName := (parseRawPackageImport spec).1
    let packagePath := (parseRawPackageImport spec).2
    match truthyGet lockfile spec with
    | some url => (Except.ok (env.fetchBody url), [Event.fetchCDN url], fetched)
    | none =>
      match truthyGet lockfile (packageName ++ "/") with
      | some pin =>
        let p := pin ++ jsStr packagePath
        (Except.ok (env.fetchBody p), [Event.fetchCDN p], fetched)
      | none =>
        let semver := truthyDep lockfile packageName
        let logStep := if semver.isNone then logFetching fetched packageName
                       else (fetched, [])
        let packageSemver := semver.getD "latest"
        let r0 := env.lookups 0
        if r0.error.isNone && (r0.importStatus == "NEW") then
          if env.buildSuccess then
            let r1 := env.lookups 1
            let tr := logStep.2 ++ [Event.lookup spec packageSemver,
                                    Event.build spec packageSemver,
                                    Event.lookup spec packageSemver]
            match r1.error with
            | some e => (Except.error (LoadError.lookupError e), tr, logStep.1)
            | none => (Except.ok r1.body, tr, logStep.1)
          else
            (Except.error (LoadError.buildError buildFailMsg),
             logStep.2 ++ [Event.lookup spec packageSemver,
                           Event.build spec packageSemver], logStep.1)
        else
          match r0.error with
          | some e => (Except.error (LoadError.lookupError e),
                       logStep.2 ++ [Event.lookup spec packageSemver], logStep.1)
          | none => (Except.ok r0.body,
                     logStep.2 ++ [Event.lookup spec packageSemver], logStep.1)

/-! ### Extension handling and the Import Rewriter (skypack.ts lines 132-140) -/

/-- Models the node path.extname collaborator on ordinary posix names: the
extension of the last slash-separated piece, from its last dot to the end,
or empty when that piece has no dot or only a leading dot. -/
def extname (p : String) : String :=
  let base := (splitSlash p.toList).getLastD []
  let tail := base.reverse.takeWhile (fun c => c != '.')
  if tail.length + 1 < base.length then String.mk ('.' :: tail.reverse)
  else ""

/-- Modelled from the spec: isJavaScript lives in src/util, which is not
among the provided sources.  Per the spec an extension either indicates a
JavaScript module or not; we take the standard JavaScript module
extensions. -/
def isJavaScript (p : String) : Bool :=
  let ext := extname p
  ext == ".js" || ext == ".jsx" || ext == ".mjs" || ext == ".cjs"

/-- The matched text of the rewrite regex for one keyword and one quote
character: the keyword, a space, the quote, then a slash. -/
def impPat (kw : String) (q : Char) : List Char := kw.toList ++ [' ', q, '/']

/-- The replacement text: the keyword, a space, the quote, the configured
web-modules URL, then the slash again. -/
def impRepl (kw : String) (q : Char) (url : List Char) : List Char :=
  kw.toList ++ [' ', q] ++ url ++ ['/']

/-- One global-regex replacement pass, for one quote character: scan left
to right, replace each non-overlapping match of the from or import form,
never re-scanning replaced text. -/
def rewritePass (q : Char) (url : List Char) (s : List Char) : List Char :=
  match s with
  | [] => []
  | c :: cs =>
    if startsWithList (impPat "from" q) (c :: cs) then
      impRepl "from" q url ++ rewritePass q url (cs.drop 6)
    else if startsWithList (impPat "import" q) (c :: cs) then
      impRepl "import" q url ++ rewritePass q url (cs.drop 8)
    else c :: rewritePass q url cs
termination_by s.length
decreasing_by
  all_goals simp only [List.length_drop, List.length_cons]
  all_goals omega

/-- Embeds the chained replace calls of load: first the single-quoted
forms over the body, then the double-quoted forms over that result. -/
def rewriteImports (url : String) (body : String) : String :=
  String.mk (rewritePass dquote url.toList (rewritePass squote url.toList body.toList))

/-- Does the pattern occur as a contiguous run anywhere in the list? -/
def occursIn (pat : List Char) : List Char → Bool
  | [] => startsWithList pat []
  | c :: cs => startsWithList pat (c :: cs) || occursIn pat cs

/-! ### load (skypack.ts lines 93-141) -/

/-- Result of one load call: the returned body or thrown error, the trace
of collaborator calls, and the updated fetchedPackages set. -/
structure LoadResult where
  result : Except LoadError String
  trace : List Event
  fetched : List String

/-- Embeds load: acquire the body via loadBody, then either decode and
rewrite it (no extension, or a JavaScript extension) or return it
untouched. -/
def load (env : Env) (spec : String) (lockfile : Option Lockfile) (config : Config)
    (fetched : List String) : LoadResult :=
  let step := loadBody env spec lockfile fetched
  match step.1 with
  | Except.error e => ⟨Except.error e, step.2.1, step.2.2⟩
  | Except.ok body =>
    if (extname spec == "") || isJavaScript spec then
      ⟨Except.ok (rewriteImports config.webModulesUrl body), step.2.1, step.2.2⟩
    else
      ⟨Except.ok body, step.2.1, step.2.2⟩

/-! ### prepare (skypack.ts lines 46-77) -/

/-- Result of a prepare call.  The result field is none when the source
code takes the bare early return (zero install targets), which in JS
yields undefined rather than an import map. -/
structure PrepareResult where
  result : Option ImportMap
  trace : List Event
  fetched : List String

/-- Embeds prepare.  The install targets come from the external
getInstallTargets scanner, so they are a parameter here (their specifier
strings).  With zero targets the source logs and returns without a value;
otherwise for each target it parses the specifier, and when no truthy
exact lockfile pin and no truthy dependency version exist it calls
logFetching, then always requests installTypes for the package name (the
two lockfile-driven rewritings of lookupSpec are commented out in the
source). -/
def prepare (targets : List String) (lockfile : Option Lockfile)
    (fetched : List String) : PrepareResult :=
  if targets.length = 0 then
    ⟨none, [Event.info "Nothing to install."], fetched⟩
  else
    let step := targets.foldl
      (fun (acc : List Event × List String) spec =>
        let packageName := (parseRawPackageImport spec).1
        let lookupSpec := packageName
        if (truthyGet lockfile spec).isSome then
          (acc.1 ++ [Event.installTypes lookupSpec], acc.2)
        else
          match truthyDep lockfile packageName with
          | none =>
            let lg := logFetching acc.2 packageName
            (acc.1 ++ lg.2 ++ [Event.installTypes lookupSpec], lg.1)
          | some _ => (acc.1 ++ [Event.installTypes lookupSpec], acc.2))
      ([], fetched)
    ⟨some { imports := [] }, step.1, step.2⟩

/-! ### Concrete instances used by counterexamples and witnesses -/

/-- Environment whose first lookup reports status NEW with no error and
whose build collaborator reports failure. -/
def envNewBuildFail : Env where
  fetchBody := fun _ => "BODY"
  lookups := fun _ => { error := none, importStatus := "NEW", body := "LBODY" }
  buildSuccess := false

/-- Environment whose lookups report NEW then READY and whose build
succeeds; fetchCDN tags the requested path. -/
def envNewThenReady : Env where
  fetchBody := fun p => "AT:" ++ p
  lookups := fun n =>
    if n = 0 then { error := none, importStatus := "NEW", body := "FIRST" }
    else { error := none, importStatus := "READY", body := "SECOND" }
  buildSuccess := true

/-- Environment that tags fetched paths and never reaches lookup or build
in the scenarios it is used for. -/
def envTagged : Env where
  fetchBody := fun p => "AT:" ++ p
  lookups := fun _ => { error := none, importStatus := "READY", body := "LB" }
  buildSuccess := true

/-- Lockfile pinning the exact specifier pin/x, a CDN-internal-looking
name, to a different URL. -/
def lfInternalPin : Lockfile where
  imports := [("pin/x", "/elsewhere")]
  dependencies := []

/-- Lockfile of the spec example: the exact specifier react is pinned. -/
def lfReactPin : Lockfile where
  imports := [("react", "/pin/react@17")]
  dependencies := []

/-- Lockfile with only a package-prefixed pin for react. -/
def lfReactDirPin : Lockfile where
  imports := [("react/", "/pin/react@17/")]
  dependencies := []

/-! ### Helper lemmas -/

theorem countLog_append (name : String) (a b : List Event) :
    countLog name (a ++ b) = countLog name a + countLog name b := by
  simp [countLog, List.filter_append]

theorem countLookups_append (a b : List Event) :
    countLookups (a ++ b) = countLookups a + countLookups b := by
  simp [countLookups, List.filter_append]

theorem countBuilds_append (a b : List Event) :
    countBuilds (a ++ b) = countBuilds a + countBuilds b := by
  simp [countBuilds, List.filter_append]

theorem countLog_logFetching (f : List String) (p name : String) :
    countLog name (logFetching f p).2 = if name = p ∧ ¬ p ∈ f then 1 else 0 := by
  unfold logFetching
  by_cases hp : p ∈ f
  · simp [hp, countLog]
  · by_cases hn : name = p
    · simp [hp, hn, countLog]
    · simp [hp, hn, countLog, Ne.symm hn]

theorem mem_logFetching_fst (f : List String) (p n : String) :
    n ∈ (logFetching f p).1 ↔ n = p ∨ n ∈ f := by
  unfold logFetching
  by_cases hp : p ∈ f
  · simp only [hp, if_true]
    constructor
    · exact fun h => Or.inr h
    · rintro (rfl | h)
      · exact hp
      · exact h
  · simp [hp]

theorem countLookups_logFetching (f : List String) (p : String) :
    countLookups (logFetching f p).2 = 0 := by
  unfold logFetching
  by_cases hp : p ∈ f <;> simp [hp, countLookups]

theorem countBuilds_logFetching (f : List String) (p : String) :
    countBuilds (logFetching f p).2 = 0 := by
  unfold logFetching
  by_cases hp : p ∈ f <;> simp [hp, countBuilds]

theorem countLookups_iflog (b : Bool) (f : List String) (p : String) :
    countLookups (if b then logFetching f p else (f, [])).2 = 0 := by
  cases b
  · simp [countLookups]
  · simpa using countLookups_logFetching f p

theorem countBuilds_iflog (b : Bool) (f : List String) (p : String) :
    countBuilds (if b then logFetching f p else (f, [])).2 = 0 := by
  cases b
  · simp [countBuilds]
  · simpa using countBuilds_logFetching f p

theorem mem_logStep_iff (c : Prop) [Decidable c] (f : List String) (p : String)
    (a : Event) :
    (a ∈ (if c then logFetching f p else (f, [])).2) ↔
      (c ∧ ¬ p ∈ f ∧ a = Event.log p) := by
  split_ifs with hc
  · unfold logFetching
    split_ifs with hp
    · simp [hp, hc]
    · simp [hp, hc]
  · simp [hc]

theorem countLog_runNotifierFrom (name : String) (calls : List String) :
    ∀ (f : List String),
      countLog name (runNotifierFrom f calls).2 =
        if name ∈ calls ∧ ¬ name ∈ f then 1 else 0 := by
  induction calls with
  | nil => intro f; simp [runNotifierFrom, countLog]
  | cons c cs ih =>
    intro f
    simp only [runNotifierFrom]
    rw [countLog_append, countLog_logFetching, ih ((logFetching f c).1)]
    simp only [List.mem_cons, mem_logFetching_fst]
    by_cases h1 : name = c
    · subst h1
      by_cases h2 : name ∈ f <;> simp [h2]
    · by_cases h2 : name ∈ cs <;> by_cases h3 : name ∈ f <;> simp [h1, h2, h3]

theorem rewritePass_of_no_occurrence (q : Char) (url : List Char) :
    ∀ (s : List Char),
      occursIn (impPat "from" q) s = false →
      occursIn (impPat "import" q) s = false →
      rewritePass q url s = s := by
  intro s
  induction s with
  | nil =>
    intro _ _
    rw [rewritePass]
  | cons c cs ih =>
    intro h1 h2
    rw [occursIn] at h1 h2
    simp only [Bool.or_eq_false_iff] at h1 h2
    rw [rewritePass]
    simp only [h1.1, h2.1, Bool.false_eq_true, if_false]
    rw [ih h1.2 h2.2]

/-! ### Claims -/

/-- Claim C5: the specifier parser satisfies the three spec examples, and
in general a scoped specifier with at least two slash-separated pieces
parses to the first two pieces joined as the package name, while any
other specifier parses to its first piece; in both cases the remaining
pieces re-joined with a slash form the subpath, becoming null when that
join is empty. -/
theorem parseRawPackageImport_spec_examples_and_rule :
    parseRawPackageImport "@scope/name/a/b" = ("@scope/name", some "a/b") ∧
    parseRawPackageImport "lodash/fp" = ("lodash", some "fp") ∧
    parseRawPackageImport "lodash" = ("lodash", none) ∧
    (∀ (s a b : String) (t : List String),
      jsStartsWith s "@" = true →
      (splitSlash s.toList).map (fun l => String.mk l) = a :: b :: t →
      parseRawPackageImport s = (a ++ "/" ++ b, orNull (String.intercalate "/" t))) ∧
    (∀ (s a : String) (t : List String),
      jsStartsWith s "@" = false →
      (splitSlash s.toList).map (fun l => String.mk l) = a :: t →
      parseRawPackageImport s = (a, orNull (String.intercalate "/" t))) := by
  refine ⟨by decide, by decide, by decide, ?_, ?_⟩
  · intro s a b t h1 h2
    unfold parseRawPackageImport
    rw [h2, h1]
    simp
  · intro s a t h1 h2
    unfold parseRawPackageImport
    rw [h2, h1]
    simp

/-- Witness for claim C5 at a concrete scoped specifier. -/
theorem parseRawPackageImport_spec_examples_and_rule_witness :
    parseRawPackageImport "@a/b/c" = ("@a/b", some "c") :=
  parseRawPackageImport_spec_examples_and_rule.2.2.2.1 "@a/b/c" "@a" "b" ["c"]
    (by decide) (by decide)

/-- Claim C10: the specifier parser is a total pure function of its input
(every string yields a result, with no effects in the embedding), and the
bare scope edge case parses to the scope joined with the text undefined
and a null subpath. -/
theorem parseRawPackageImport_total_and_scope_edge :
    parseRawPackageImport "@scope" = ("@scope/undefined", none) ∧
    ∀ (s : String), ∃ (pn : String) (sub : Option String),
      parseRawPackageImport s = (pn, sub) :=
  ⟨by decide, fun _ => ⟨_, _, rfl⟩⟩

/-- Claim C4: for any sequence of Dedup Notifier calls in one process
lifetime, a package name that is called at least once gets exactly one
progress message, and no name ever gets more than one. -/
theorem logFetching_once_per_package (calls : List String) (name : String) :
    (name ∈ calls → countLog name (runNotifier calls).2 = 1) ∧
    countLog name (runNotifier calls).2 ≤ 1 := by
  unfold runNotifier
  rw [countLog_runNotifierFrom name calls []]
  constructor
  · intro hm
    simp [hm]
  · by_cases hm : name ∈ calls <;> simp [hm]

/-- Witness for claim C4: three calls mentioning react twice produce
exactly one react message. -/
theorem logFetching_once_per_package_witness :
    countLog "react" (runNotifier ["react", "vue", "react"]).2 = 1 :=
  (logFetching_once_per_package ["react", "vue", "react"] "react").1 (by decide)

/-- Claim C7: on text containing none of the four rewrite patterns (the
from and import forms, single and double quoted), the import rewrite is
the identity. -/
theorem rewrite_unchanged_without_patterns (url body : String)
    (h1 : occursIn (impPat "from" squote) body.toList = false)
    (h2 : occursIn (impPat "import" squote) body.toList = false)
    (h3 : occursIn (impPat "from" dquote) body.toList = false)
    (h4 : occursIn (impPat "import" dquote) body.toList = false) :
    rewriteImports url body = body := by
  unfold rewriteImports
  rw [rewritePass_of_no_occurrence squote url.toList body.toList h1 h2,
      rewritePass_of_no_occurrence dquote url.toList body.toList h3 h4]
  cases body
  rfl

/-- Witness for claim C7 on a concrete already-clean text. -/
theorem rewrite_unchanged_without_patterns_witness :
    rewriteImports "/web_modules" "hello" = "hello" :=
  rewrite_unchanged_without_patterns "/web_modules" "hello"
    (by decide) (by decide) (by decide) (by decide)

/-- Claim C1, counterexample: with no lockfile, a first lookup reporting
no error and status NEW, and a failing build, load performs only one
lookup and throws, so the claim as stated (exactly two lookups and the
second body returned whenever the first lookup reports NEW) is false. -/
theorem load_new_build_fail_single_lookup :
    (envNewBuildFail.lookups 0).error = none ∧
    (envNewBuildFail.lookups 0).importStatus = "NEW" ∧
    countLookups (loadBody envNewBuildFail "react" none []).2.1 = 1 ∧
    countBuilds (loadBody envNewBuildFail "react" none []).2.1 = 1 ∧
    (loadBody envNewBuildFail "react" none []).1 =
      Except.error (LoadError.buildError buildFailMsg) :=
  ⟨rfl, rfl, rfl, rfl, rfl⟩

/-- Claim C1, amended: on a package specifier with no lockfile pin, when
the first lookup reports no error and status NEW and the build request
succeeds, load performs exactly one build and exactly two lookups with no
further retries, and when the second lookup reports no error its body is
the result. -/
theorem load_new_single_retry_amended (env : Env) (spec : String)
    (lockfile : Option Lockfile) (fetched : List String)
    (hint : isCdnInternal spec = false)
    (hpin : truthyGet lockfile spec = none)
    (hdir : truthyGet lockfile ((parseRawPackageImport spec).1 ++ "/") = none)
    (herr : (env.lookups 0).error = none)
    (hnew : (env.lookups 0).importStatus = "NEW")
    (hbuild : env.buildSuccess = true) :
    countLookups (loadBody env spec lockfile fetched).2.1 = 2 ∧
    countBuilds (loadBody env spec lockfile fetched).2.1 = 1 ∧
    ((env.lookups 1).error = none →
      (loadBody env spec lockfile fetched).1 = Except.ok (env.lookups 1).body) := by
  unfold loadBody
  rw [hint]
  cases hr1 : (env.lookups 1).error with
  | none =>
    simp [hpin, hdir, herr, hnew, hbuild, hr1, countLookups_append,
          countBuilds_append, countLookups_iflog, countBuilds_iflog,
          countLookups, countBuilds, mem_logStep_iff]
    exact ⟨fun a _ _ h => by subst h; rfl, fun a _ _ h => by subst h; rfl⟩
  | some e =>
    simp [hpin, hdir, herr, hnew, hbuild, hr1, countLookups_append,
          countBuilds_append, countLookups_iflog, countBuilds_iflog,
          countLookups, countBuilds, mem_logStep_iff]
    exact ⟨fun a _ _ h => by subst h; rfl, fun a _ _ h => by subst h; rfl⟩

/-- Witness for the amended claim C1: lookups answering NEW then READY
with a succeeding build give one build, two lookups and the second body. -/
theorem load_new_single_retry_amended_witness :
    countLookups (loadBody envNewThenReady "react" none []).2.1 = 2 ∧
    countBuilds (loadBody envNewThenReady "react" none []).2.1 = 1 ∧
    (loadBody envNewThenReady "react" none []).1 = Except.ok "SECOND" := by
  have h := load_new_single_retry_amended envNewThenReady "react" none []
    rfl rfl rfl rfl rfl rfl
  exact ⟨h.1, h.2.1, h.2.2 rfl⟩

/-- Claim C2, counterexample: the CDN-internal marker branch runs before
the lockfile is consulted, so a specifier such as pin/x whose exact pin
is a different URL is fetched from the CDN-internal path, not from the
pinned URL. -/
theorem load_internal_marker_ignores_pin :
    mapGet lfInternalPin.imports "pin/x" = some "/elsewhere" ∧
    (loadBody envTagged "pin/x" (some lfInternalPin) []).2.1 =
      [Event.fetchCDN "/pin/x"] ∧
    (loadBody envTagged "pin/x" (some lfInternalPin) []).1 =
      Except.ok "AT:/pin/x" :=
  ⟨rfl, rfl, rfl⟩

/-- Claim C2, amended: on a specifier that does not begin with one of the
CDN-internal markers and whose exact lockfile pin exists with a nonempty
URL, load fetches the body from that pinned URL and performs no lookup
and no build. -/
theorem load_exact_pin_fetches_pinned (env : Env) (spec : String)
    (lockfile : Option Lockfile) (fetched : List String) (url : String)
    (hint : isCdnInternal spec = false)
    (hpin : truthyGet lockfile spec = some url) :
    (loadBody env spec lockfile fetched).1 = Except.ok (env.fetchBody url) ∧
    (loadBody env spec lockfile fetched).2.1 = [Event.fetchCDN url] := by
  unfold loadBody
  rw [hint]
  simp [hpin]

/-- Witness for the amended claim C2 at the spec example: react pinned to
/pin/react@17 is fetched from exactly that URL. -/
theorem load_exact_pin_fetches_pinned_witness :
    (loadBody envTagged "react" (some lfReactPin) []).1 =
      Except.ok "AT:/pin/react@17" ∧
    (loadBody envTagged "react" (some lfReactPin) []).2.1 =
      [Event.fetchCDN "/pin/react@17"] :=
  load_exact_pin_fetches_pinned envTagged "react" (some lfReactPin) []
    "/pin/react@17" rfl rfl

/-- Claim C3: on the lookup path, a failing build makes load throw the
descriptive build error (a constructor distinct from the re-thrown lookup
error) after a single lookup and no retry; and whenever the first lookup,
or the post-build retry lookup, reports an error, that error is re-thrown
as-is. -/
theorem load_build_fail_and_lookup_error_propagation (env : Env) (spec : String)
    (lockfile : Option Lockfile) (fetched : List String)
    (hint : isCdnInternal spec = false)
    (hpin : truthyGet lockfile spec = none)
    (hdir : truthyGet lockfile ((parseRawPackageImport spec).1 ++ "/") = none) :
    ((env.lookups 0).error = none → (env.lookups 0).importStatus = "NEW" →
      env.buildSuccess = false →
      (loadBody env spec lockfile fetched).1 =
        Except.error (LoadError.buildError buildFailMsg) ∧
      countLookups (loadBody env spec lockfile fetched).2.1 = 1) ∧
    (∀ e, (env.lookups 0).error = none → (env.lookups 0).importStatus = "NEW" →
      env.buildSuccess = true → (env.lookups 1).error = some e →
      (loadBody env spec lockfile fetched).1 =
        Except.error (LoadError.lookupError e)) ∧
    (∀ e, (env.lookups 0).error = some e →
      (loadBody env spec lockfile fetched).1 =
        Except.error (LoadError.lookupError e)) := by
  refine ⟨?_, ?_, ?_⟩
  · intro herr hnew hbuild
    unfold loadBody
    rw [hint]
    simp [hpin, hdir, herr, hnew, hbuild, countLookups_append,
          countLookups_iflog, countLookups, mem_logStep_iff]
    exact fun a _ _ h => by subst h; rfl
  · intro e herr hnew hbuild hr1
    unfold loadBody
    rw [hint]
    simp [hpin, hdir, herr, hnew, hbuild, hr1]
  · intro e herr
    unfold loadBody
    rw [hint]
    simp [hpin, hdir, herr]

/-- Witness for claim C3 in the failing-build scenario. -/
theorem load_build_fail_and_lookup_error_propagation_witness :
    (loadBody envNewBuildFail "react" none []).1 =
      Except.error (LoadError.buildError buildFailMsg) ∧
    countLookups (loadBody envNewBuildFail "react" none []).2.1 = 1 :=
  (load_build_fail_and_lookup_error_propagation envNewBuildFail "react" none []
    rfl rfl rfl).1 rfl rfl rfl

/-- Claim C8: when the specifier has an extension and that extension is
not a JavaScript one, load returns exactly what the body-acquisition step
produced: same body bytes, same trace, same state, with no rewriting. -/
theorem load_non_js_ext_returns_raw (env : Env) (spec : String)
    (lockfile : Option Lockfile) (config : Config) (fetched : List String)
    (hext : ¬ extname spec = "")
    (hjs : isJavaScript spec = false) :
    load env spec lockfile config fetched =
      ⟨(loadBody env spec lockfile fetched).1,
       (loadBody env spec lockfile fetched).2.1,
       (loadBody env spec lockfile fetched).2.2⟩ := by
  unfold load
  cases h : (loadBody env spec lockfile fetched).1 with
  | error e => simp [h]
  | ok body => simp [h, hext, hjs]

/-- Witness for claim C8: a css path is returned exactly as fetched. -/
theorem load_non_js_ext_returns_raw_witness :
    load envTagged "pin/x.css" none ⟨"/web_modules"⟩ [] =
      ⟨Except.ok "AT:/pin/x.css", [Event.fetchCDN "/pin/x.css"], []⟩ :=
  load_non_js_ext_returns_raw envTagged "pin/x.css" none ⟨"/web_modules"⟩ []
    (by decide) rfl

/-- Claim C9: with only a package-prefixed lockfile pin and a specifier
with no subpath, the fetched path is the pinned URL with the literal text
null appended, exactly as JS concatenation with a null operand renders. -/
theorem load_pin_key_null_concat (env : Env) (spec : String)
    (lockfile : Option Lockfile) (fetched : List String) (pin : String)
    (hint : isCdnInternal spec = false)
    (hpin : truthyGet lockfile spec = none)
    (hdir : truthyGet lockfile ((parseRawPackageImport spec).1 ++ "/") = some pin)
    (hsub : (parseRawPackageImport spec).2 = none) :
    (loadBody env spec lockfile fetched).2.1 = [Event.fetchCDN (pin ++ "null")] ∧
    (loadBody env spec lockfile fetched).1 =
      Except.ok (env.fetchBody (pin ++ "null")) := by
  unfold loadBody
  rw [hint]
  simp [hpin, hdir, hsub, jsStr]

/-- Witness for claim C9: react with a prefixed pin fetches the pinned
URL followed by the text null. -/
theorem load_pin_key_null_concat_witness :
    (loadBody envTagged "react" (some lfReactDirPin) []).2.1 =
      [Event.fetchCDN "/pin/react@17/null"] ∧
    (loadBody envTagged "react" (some lfReactDirPin) []).1 =
      Except.ok "AT:/pin/react@17/null" :=
  load_pin_key_null_concat envTagged "react" (some lfReactDirPin) []
    "/pin/react@17/" rfl rfl rfl rfl

/-- Claim C6, counterexample: with zero install targets prepare logs and
takes the bare early return, so it produces no import map at all rather
than the empty one. -/
theorem prepare_zero_targets_returns_none :
    (prepare [] none []).result = none ∧
    (prepare [] none []).trace = [Event.info "Nothing to install."] :=
  ⟨rfl, rfl⟩

/-- Claim C6, amended: prepare returns the empty import map whenever
there is at least one install target; with zero targets it only emits the
info log and returns without a value. -/
theorem prepare_import_map_amended (targets : List String)
    (lockfile : Option Lockfile) (fetched : List String)
    (hne : targets ≠ []) :
    (prepare targets lockfile fetched).result = some { imports := [] } := by
  unfold prepare
  simp [List.length_eq_zero, hne]

/-- Witness for the amended claim C6 with one install target. -/
theorem prepare_import_map_amended_witness :
    (prepare ["react"] none []).result = some { imports := [] } :=
  prepare_import_map_amended ["react"] none [] (by decide)

end Skypack
